import Mathlib

/-!
Verification of the townhall-rwa scraping pipeline.

Shallow embedding of the PIN-extraction, PDF-parsing, calendar-scraping,
GIS-resolution, storage and orchestration logic of the repository
(src/utils/pin_extractor.py, the PDF parser module,
src/agents/charlottenc_legistar/scraper.py, gis_fetcher.py, storage.py,
src/main.py).  External effects (regex engines, PDF backends, HTTP, the
filesystem) are modelled as explicit oracle functions passed in; everything
the repository computes on top of them is translated directly.
-/

namespace Townhall

/-! ### Identifier extraction (src/utils/pin_extractor.py)

A regex pattern is embedded by its matching semantics: the function sending a
text to the list of matched groups that `re.findall(pattern, text, re.IGNORECASE)`
returns, in order of occurrence. -/

/-- `m.replace('-', '')` of pin_extractor.py line 67: drop every hyphen. -/
def normalizePin (m : String) : String :=
  (m.toList.filter (fun c => c != '-')).asString

/-- `sorted(list(pins))`: Python sorts strings lexicographically by code point,
which is exactly Lean's linear order on `String`. -/
def sortPins (l : List String) : List String :=
  List.insertionSort (fun a b => a ≤ b) l

/-- Lines 56-78 of `PINExtractor.extract_from_pdf`: the per-text extraction core.
`if not text: return []`, then every pattern is applied, each match is
hyphen-normalized and inserted into one set, and the set is returned sorted. -/
def extractPinsFromText (patterns : List (String → List String)) (text : String) :
    List String :=
  if text = "" then []
  else sortPins ((patterns.flatMap (fun p => (p text).map normalizePin)).dedup)

/-! ### Document text source (the PDF parser module, src/utils)

The two backends (pdfplumber, PyPDF2) and the filesystem are oracles in
`PdfEnv`; paths are strings as in the source.  `_parse_with_pdfplumber` and
`_parse_with_pypdf2` catch every backend exception internally and return
`("", 0)`, which the wrappers below reproduce. -/

/-- Errors `parse_pdf` can raise: `FileNotFoundError` and the generic
`Exception("No PDF parsing library available...")`. -/
inductive PdfError where
  | notFound (msg : String)
  | extractionError (msg : String)
deriving DecidableEq, Repr

/-- The dictionary `parse_pdf` returns: text, page_count, size_kb, metadata. -/
structure PdfResult where
  text : String
  pageCount : Nat
  sizeKb : Nat
  metadata : List (String × String)
deriving DecidableEq, Repr

/-- Oracles for the external world of the PDF parser module: backend availability
flags, the raw backends (which may raise, modelled as `Except`), file
existence, file size and the best-effort metadata reader (whose own failures
are swallowed inside `_extract_metadata`, hence a total function). -/
structure PdfEnv where
  plumberAvail : Bool
  pypdf2Avail : Bool
  plumber : String → Except String (String × Nat)
  pypdf2 : String → Except String (String × Nat)
  fileExists : String → Bool
  sizeKb : String → Nat
  metadata : String → List (String × String)

/-- `_parse_with_pdfplumber`: any backend exception is caught and `("", 0)`
is returned (PDF parser module lines 105-107). -/
def parseWithPdfplumber (env : PdfEnv) (path : String) : String × Nat :=
  match env.plumber path with
  | .ok r => r
  | .error _ => ("", 0)

/-- `_parse_with_pypdf2`: same swallow-and-default structure (lines 128-130). -/
def parseWithPypdf2 (env : PdfEnv) (path : String) : String × Nat :=
  match env.pypdf2 path with
  | .ok r => r
  | .error _ => ("", 0)

/-- `parse_pdf` (PDF parser module lines 25-85): existence check, primary backend
selection (pdfplumber preferred), the under-100-characters fallback check,
then the result dictionary.  The `raise Exception(...)` for a missing library
propagates out of the re-raising `except` block as an extraction error. -/
def parsePdf (env : PdfEnv) (path : String) : Except PdfError PdfResult :=
  if env.fileExists path = false then
    .error (.notFound "PDF file not found")
  else
    match (if env.plumberAvail then Except.ok (parseWithPdfplumber env path)
           else if env.pypdf2Avail then Except.ok (parseWithPypdf2 env path)
           else Except.error (PdfError.extractionError
             "No PDF parsing library available")) with
    | .error e => .error e
    | .ok pr =>
      let fin := if pr.1.length < 100 && env.pypdf2Avail && env.plumberAvail
        then parseWithPypdf2 env path else pr
      .ok ⟨fin.1, fin.2, env.sizeKb path, env.metadata path⟩

/-- `PINExtractor.extract_from_pdf` (pin_extractor.py lines 35-82): missing
file gives `[]`, a raising `parse_pdf` is caught and gives `[]`, otherwise the
per-text core runs on `result.get('text', '')`. -/
def extract_from_pdf (env : PdfEnv) (patterns : List (String → List String))
    (path : String) : List String :=
  if env.fileExists path = false then []
  else
    match parsePdf env path with
    | .error _ => []
    | .ok r => extractPinsFromText patterns r.text

/-- `PINExtractor.extract_from_directory` (lines 84-127).  The directory is
modelled as `none` when missing and `some files` (the `*.pdf` glob result,
in glob order) when present. -/
def extract_from_directory (env : PdfEnv) (patterns : List (String → List String))
    (dir : Option (List String)) : List String :=
  match dir with
  | none => []
  | some pdfFiles =>
    if pdfFiles = [] then []
    else sortPins ((pdfFiles.flatMap (extract_from_pdf env patterns)).dedup)

/-- `PINExtractor.extract_batch` (lines 129-145). -/
def extract_batch (env : PdfEnv) (patterns : List (String → List String))
    (pdfPaths : List String) : List String :=
  sortPins ((pdfPaths.flatMap (extract_from_pdf env patterns)).dedup)

/-! ### Data model (src/agents/charlottenc_legistar/models.py)

`petition_id`, `meeting_id` and `scraped_at` are generated metadata with no
bearing on any claim and are omitted. -/

structure Petition where
  fileNumber : String
  petitionNumber : Option String := none
  location : Option String := none
  address : Option String := none
  currentZoning : Option String := none
  proposedZoning : Option String := none
  petitioner : Option String := none
  status : Option String := none
  action : Option String := none
  voteResult : Option String := none
  legislationUrl : Option String := none
  pins : Option (List String) := none
deriving DecidableEq, Repr

structure Meeting where
  meetingType : String
  meetingDate : String
  meetingTime : Option String := none
  location : Option String := none
  meetingDetailsUrl : String
  agendaUrl : Option String := none
  petitions : List Petition := []
deriving DecidableEq, Repr

/-! ### Date parsing (`LegistarScraper._parse_date`, scraper.py lines 45-57)

`datetime.strptime` is embedded at the level of CPython's `_strptime` regexes:
`%m` is a 1-2 digit month 1-12, `%d` a 1-2 digit day 1-31, `%Y` exactly four
digits, `%B` a full month name matched case-insensitively; whitespace in the
format matches a nonempty whitespace run, the whole string must be consumed,
and the resulting calendar date must be valid (else `ValueError`, caught, and
the next format is tried). -/

def digitVal (c : Char) : Nat := c.toNat - 48

def natOfDigits (cs : List Char) : Nat :=
  cs.foldl (fun n c => n * 10 + digitVal c) 0

/-- A 1-2 digit numeric field with an inclusive value range (`%m`, `%d`). -/
def parseNumField (cs : List Char) (lo hi : Nat) : Option Nat :=
  if (cs.length = 1 ∨ cs.length = 2) ∧ cs.all (·.isDigit) = true then
    let v := natOfDigits cs
    if lo ≤ v ∧ v ≤ hi then some v else none
  else none

/-- `%Y`: exactly four digits; year 0 is below `datetime.MINYEAR`. -/
def parseYearField (cs : List Char) : Option Nat :=
  if cs.length = 4 ∧ cs.all (·.isDigit) = true then
    let v := natOfDigits cs
    if 1 ≤ v then some v else none
  else none

def isLeapYear (y : Nat) : Bool :=
  y % 4 == 0 && (y % 100 != 0 || y % 400 == 0)

def daysInMonth (y m : Nat) : Nat :=
  if m == 2 then (if isLeapYear y then 29 else 28)
  else if m == 4 || m == 6 || m == 9 || m == 11 then 30
  else 31

/-- The `datetime(...)` constructor's day-of-month validation. -/
def checkDate (y m d : Nat) : Option (Nat × Nat × Nat) :=
  if d ≤ daysInMonth y m then some (y, m, d) else none

/-- `str.split` on one separator character (Python semantics, keeps empties). -/
def splitOnChar (sep : Char) : List Char → List (List Char)
  | [] => [[]]
  | c :: cs =>
    let r := splitOnChar sep cs
    if c = sep then [] :: r
    else
      match r with
      | [] => [[c]]
      | g :: gs => (c :: g) :: gs

/-- `strptime(s, '%m/%d/%Y')`. -/
def parseSlashDate (s : String) : Option (Nat × Nat × Nat) :=
  match splitOnChar '/' s.toList with
  | [ms, ds, ys] => do
    let m ← parseNumField ms 1 12
    let d ← parseNumField ds 1 31
    let y ← parseYearField ys
    checkDate y m d
  | _ => none

/-- `strptime(s, '%Y-%m-%d')`. -/
def parseIsoCalDate (s : String) : Option (Nat × Nat × Nat) :=
  match splitOnChar '-' s.toList with
  | [ys, ms, ds] => do
    let y ← parseYearField ys
    let m ← parseNumField ms 1 12
    let d ← parseNumField ds 1 31
    checkDate y m d
  | _ => none

def monthNames : List (List Char × Nat) :=
  [("january".toList, 1), ("february".toList, 2), ("march".toList, 3),
   ("april".toList, 4), ("may".toList, 5), ("june".toList, 6),
   ("july".toList, 7), ("august".toList, 8), ("september".toList, 9),
   ("october".toList, 10), ("november".toList, 11), ("december".toList, 12)]

def dropExactChars : List Char → List Char → Option (List Char)
  | [], rest => some rest
  | _ :: _, [] => none
  | p :: ps, c :: cs => if c = p then dropExactChars ps cs else none

/-- Format whitespace: one or more whitespace characters. -/
def skipWs1 : List Char → Option (List Char)
  | [] => none
  | c :: cs => if c.isWhitespace then some (cs.dropWhile (·.isWhitespace)) else none

def matchMonthName : List (List Char × Nat) → List Char → Option (Nat × List Char)
  | [], _ => none
  | (nm, m) :: rest, cs =>
    match dropExactChars nm cs with
    | some cs2 => some (m, cs2)
    | none => matchMonthName rest cs

/-- `strptime(s, '%B %d, %Y')`, matched case-insensitively. -/
def parseLongDate (s : String) : Option (Nat × Nat × Nat) :=
  let cs := s.toList.map Char.toLower
  match matchMonthName monthNames cs with
  | none => none
  | some (m, cs1) =>
    match skipWs1 cs1 with
    | none => none
    | some cs2 =>
      match parseNumField (cs2.takeWhile (·.isDigit)) 1 31 with
      | none => none
      | some d =>
        match cs2.dropWhile (·.isDigit) with
        | ',' :: cs4 =>
          match skipWs1 cs4 with
          | none => none
          | some cs5 =>
            match parseYearField cs5 with
            | some y => checkDate y m d
            | none => none
        | _ => none

/-- `'0'`-padding of `strftime('%m')`/`('%d')`. -/
def pad2 (n : Nat) : String := if n < 10 then "0" ++ toString n else toString n

/-- `dt.strftime('%Y-%m-%d')` (glibc leaves `%Y` unpadded; all years parsed
here come from 4-digit tokens). -/
def formatIsoDate : Nat × Nat × Nat → String
  | (y, m, d) => toString y ++ "-" ++ pad2 m ++ "-" ++ pad2 d

/-- `LegistarScraper._parse_date`: the three formats tried in priority order,
returning the ISO rendering of the first that parses, else `None`. -/
def parseDate (s : String) : Option String :=
  match parseSlashDate s with
  | some ymd => some (formatIsoDate ymd)
  | none =>
    match parseIsoCalDate s with
    | some ymd => some (formatIsoDate ymd)
    | none => (parseLongDate s).map formatIsoDate

/-! ### Calendar row parsing (`LegistarScraper._parse_calendar_row`, lines 135-181)

A table cell is embedded as its stripped text, its first `<a>` element (if
any) and its first `<span>` text (if any); an anchor carries its optional
`href` attribute and its stripped text. -/

structure Anchor where
  href : Option String
  text : String
deriving DecidableEq, Repr

structure Cell where
  text : String
  anchor : Option Anchor := none
  span : Option String := none
deriving DecidableEq, Repr

structure Row where
  cells : List Cell
deriving DecidableEq, Repr

def defaultCell : Cell := ⟨"", none, none⟩

def cellAt (row : Row) (i : Nat) : Cell := row.cells.getD i defaultCell

/-- `str.startswith` over the character list (kernel-reducible). -/
def listBeginsWith : List Char → List Char → Bool
  | [], _ => true
  | _ :: _, [] => false
  | p :: ps, c :: cs => c == p && listBeginsWith ps cs

/-- `LegistarScraper._make_absolute_url` (lines 37-43): empty or `'#'` hrefs
(and absent `href` attributes) yield `None`; absolute URLs pass through;
relative ones are joined to the base after `lstrip('/')`. -/
def makeAbsoluteUrl (base : String) (url : Option String) : Option String :=
  match url with
  | none => none
  | some u =>
    if u = "" ∨ u = "#" then none
    else if listBeginsWith "http".toList u.toList then some u
    else some (base ++ "/" ++ String.mk (u.toList.dropWhile (· = '/')))

/-- `_parse_calendar_row`: the column-count guard, the date guard, and the
meeting-details link.  A details href of `'#'`/empty resolves to `None`, and
`Meeting(meeting_details_url=None)` fails pydantic validation, which the
enclosing `except` turns into a skipped row: hence the final guard. -/
def parseCalendarRow (base : String) (row : Row) : Option Meeting :=
  if row.cells.length < 5 then none
  else
    let c0 := cellAt row 0
    let meetingType := match c0.anchor with
      | some a => a.text
      | none => c0.text
    match parseDate (cellAt row 1).text with
    | none => none
    | some date =>
      let c3 := cellAt row 3
      let time := match c3.span with
        | some t => t
        | none => c3.text
      let loc := (cellAt row 4).text
      match (cellAt row 5).anchor with
      | none => none
      | some link =>
        match makeAbsoluteUrl base link.href with
        | none => none
        | some url =>
          let agenda := match (cellAt row 6).anchor with
            | some a => makeAbsoluteUrl base a.href
            | none => none
          some ⟨meetingType, date, some time, some loc, url, agenda, []⟩

/-- The row loop of `fetch_calendar` (lines 121-125): parse each row, keep the
successes in order. -/
def extractMeetings (base : String) (rows : List Row) : List Meeting :=
  rows.foldl (fun acc row =>
    match parseCalendarRow base row with
    | some m => acc ++ [m]
    | none => acc) []

/-! ### Date-range filtering (`LegistarScraper._filter_by_date`, lines 59-95) -/

/-- `_filter_by_date`: Python truthiness on the bounds (`None` and `""` both
skip that bound), then two successive list comprehensions comparing the ISO
date strings with `>=` / `<=`. -/
def filterByDate (meetings : List Meeting) (startDate endDate : Option String) :
    List Meeting :=
  let f1 := match startDate with
    | some s => if s = "" then meetings
        else meetings.filter (fun m => decide (s ≤ m.meetingDate))
    | none => meetings
  match endDate with
  | some e => if e = "" then f1
      else f1.filter (fun m => decide (m.meetingDate ≤ e))
  | none => f1

/-- A string of the shape `YYYY-MM-DD` (the documented form of the bounds). -/
def isIsoDateString (s : String) : Bool :=
  match s.toList with
  | [a, b, c, d, h1, e, f, h2, g, k] =>
    [a, b, c, d, e, f, g, k].all (·.isDigit) && h1 == '-' && h2 == '-'
  | _ => false

def optIso : Option String → Bool
  | none => true
  | some s => isIsoDateString s

/-- The specified date-range predicate: `start ≤ d` when a start bound is
given and `d ≤ end` when an end bound is given, inclusive on both sides. -/
def inRange (startDate endDate : Option String) (m : Meeting) : Bool :=
  (match startDate with
   | none => true
   | some s => decide (s ≤ m.meetingDate)) &&
  (match endDate with
   | none => true
   | some e => decide (m.meetingDate ≤ e))

/-! ### GIS geometry resolution (src/agents/charlottenc_legistar/gis_fetcher.py)

A GeoJSON feature is embedded as an uninterpreted geometry payload plus a property
dictionary (association list with string keys and JSON-nullable string
values).  `MecklenburgGISClient.get_parcel_by_pid` returns the first matched
feature or `None` on a no-match or any request failure, so the external
lookup is an oracle `String → Option GisFeature`. -/

structure GisFeature where
  geometry : String
  properties : List (String × Option String)
deriving DecidableEq, Repr

structure FeatureCollection where
  features : List GisFeature
deriving DecidableEq, Repr

/-- Lookup in a property dictionary rendered as an association list:
`some v` when the key is present with value `v` (itself an optional string,
JSON null being `none`), `none` when the key is absent. -/
def getProp : List (String × Option String) → String → Option (Option String)
  | [], _ => none
  | (a, b) :: rest, k => if k = a then some b else getProp rest k

/-- Python `dict.update`: existing keys keep their position but take the new
value; new keys are appended in the update's order. -/
def dictUpdate (d u : List (String × Option String)) :
    List (String × Option String) :=
  d.map (fun kv =>
    match getProp u kv.1 with
    | some v => (kv.1, v)
    | none => kv)
  ++ u.filter (fun kv => (getProp d kv.1).isNone)

/-- `petition.petition_number or petition.file_number` (gis_fetcher.py line 66,
Python truthiness: `None` and `""` both fall back). -/
def displayPetitionNumber (p : Petition) : String :=
  match p.petitionNumber with
  | some s => if s = "" then p.fileNumber else s
  | none => p.fileNumber

/-- `petition.pins or []` (line 67). -/
def pinsOf (p : Petition) : List String := p.pins.getD []

/-- `p.pins and len(p.pins) > 0` (line 53). -/
def hasPins (p : Petition) : Bool := !(pinsOf p).isEmpty

/-- The `parcel['properties'].update(...)` payload of lines 79-89. -/
def petitionAugProps (p : Petition) (meetingDate meetingType : String) :
    List (String × Option String) :=
  [("petition_number", some (displayPetitionNumber p)),
   ("file_number", some p.fileNumber),
   ("location", p.location),
   ("status", p.status),
   ("current_zoning", p.currentZoning),
   ("proposed_zoning", p.proposedZoning),
   ("petitioner", p.petitioner),
   ("meeting_date", some meetingDate),
   ("meeting_type", some meetingType)]

/-- Result of one `fetch_parcels_for_petitions` call: the FeatureCollection's
features plus the `total_parcels` / `total_found` counters the code tracks. -/
structure FetchResult where
  features : List GisFeature
  attempted : Nat
  found : Nat
deriving DecidableEq, Repr

/-- Lines 77-91: a matched parcel keeps its geometry and has its property
dictionary updated in place with the petition/meeting fields. -/
def augFeature (p : Petition) (meetingDate meetingType : String)
    (parcel : GisFeature) : GisFeature :=
  ⟨parcel.geometry,
   dictUpdate parcel.properties (petitionAugProps p meetingDate meetingType)⟩

/-- The body of the per-PIN loop (lines 71-98): bump `total_parcels`, look the
PIN up, and on a match append the augmented feature and bump `total_found`. -/
def gisPinStep (lookup : String → Option GisFeature) (p : Petition)
    (meetingDate meetingType : String) (acc2 : FetchResult) (pin : String) :
    FetchResult :=
  let acc3 : FetchResult := ⟨acc2.features, acc2.attempted + 1, acc2.found⟩
  match lookup pin with
  | some parcel =>
    ⟨acc3.features ++ [augFeature p meetingDate meetingType parcel],
     acc3.attempted, acc3.found + 1⟩
  | none => acc3

/-- The body of the per-petition loop (lines 65-98). -/
def gisPetitionStep (lookup : String → Option GisFeature)
    (meetingDate meetingType : String) (acc : FetchResult) (p : Petition) :
    FetchResult :=
  (pinsOf p).foldl (gisPinStep lookup p meetingDate meetingType) acc

/-- `GISFetcher.fetch_parcels_for_petitions` (lines 35-107): filter to
petitions with PINs, early-out on none, then the nested per-petition /
per-PIN loop with the two counters. -/
def fetchParcelsForPetitions (lookup : String → Option GisFeature)
    (petitions : List Petition) (meetingDate meetingType : String) : FetchResult :=
  let withPins := petitions.filter hasPins
  if withPins.isEmpty then ⟨[], 0, 0⟩
  else withPins.foldl (gisPetitionStep lookup meetingDate meetingType) ⟨[], 0, 0⟩

/-- The specified shape of the resolved feature list: per petition and per
PIN, an unmatched identifier contributes nothing and a matched one
contributes exactly its augmented feature. -/
def resolvedFeatures (lookup : String → Option GisFeature)
    (meetingDate meetingType : String) (ps : List Petition) : List GisFeature :=
  ps.flatMap (fun p =>
    (pinsOf p).filterMap (fun pin =>
      (lookup pin).map (augFeature p meetingDate meetingType)))

/-! ### Storage (src/agents/charlottenc_legistar/storage.py)

Each artifact file is modelled as `none` when absent and as its decoded JSON
document when present.  `ScraperStats()` carries pydantic defaults: all
counters zero and no last-scrape time (models.py lines 61-68). -/

structure ScraperStats where
  totalMeetings : Nat := 0
  totalPetitions : Nat := 0
  zoningMeetings : Nat := 0
  petitionsWithPins : Nat := 0
  totalPins : Nat := 0
  lastScrapeTime : Option String := none
deriving DecidableEq, Repr

/-- One row of petitions.json: the petition dict with the meeting context
folded in by `save_petitions`. -/
structure PetitionRecord where
  petition : Petition
  meetingDate : String
  meetingType : String
deriving DecidableEq, Repr

structure MeetingsDoc where
  meetings : List Meeting
  lastUpdated : String
  totalCount : Nat
deriving DecidableEq, Repr

structure PetitionsDoc where
  petitions : List PetitionRecord
  lastUpdated : String
  totalCount : Nat
deriving DecidableEq, Repr

/-- The four artifact files of one `Storage` data directory. -/
structure StorageState where
  meetingsFile : Option MeetingsDoc
  petitionsFile : Option PetitionsDoc
  statsFile : Option ScraperStats
  parcelsFile : Option FeatureCollection
deriving DecidableEq, Repr

/-- `Storage.load_meetings` (storage.py lines 92-99). -/
def load_meetings (st : StorageState) : List Meeting :=
  match st.meetingsFile with
  | none => []
  | some d => d.meetings

/-- `Storage.load_petitions` (lines 101-108). -/
def load_petitions (st : StorageState) : List PetitionRecord :=
  match st.petitionsFile with
  | none => []
  | some d => d.petitions

/-- `Storage.get_stats` (lines 110-117). -/
def get_stats (st : StorageState) : ScraperStats :=
  match st.statsFile with
  | none => {}
  | some s => s

/-- `Storage.load_parcels_geojson` (lines 127-133). -/
def load_parcels_geojson (st : StorageState) : FeatureCollection :=
  match st.parcelsFile with
  | none => ⟨[]⟩
  | some g => g

/-! ### Orchestration (src/main.py)

One `TownhallOrchestrator.run` is driven by an environment of step outcomes:
the scrape (which `_scrape_meetings` re-raises on failure), petition
processing (`_process_petitions` re-raises), geometry fetching (whose
failures `_fetch_parcel_geometry` swallows, defaulting to an empty
FeatureCollection) and the four artifact writes of `_save_data`.  `run`
returns its boolean outcome together with the artifacts actually written. -/

inductive Artifact where
  | meetings
  | petitions
  | parcels
  | stats
deriving DecidableEq, Repr

structure OrchEnv where
  scrapeMeetings : Except String (List Meeting)
  processPetitions : List Meeting → Except String (List Meeting)
  fetchGeometry : List Meeting → Except String FeatureCollection
  saveMeetingsW : Except String Unit
  savePetitionsW : Except String Unit
  saveParcelsW : Except String Unit
  saveStatsW : Except String Unit

/-- `TownhallOrchestrator._save_data` (main.py lines 191-211): one `try`
block saving meetings, petitions, the parcel GeoJSON (always present, since
`_fetch_parcel_geometry` sets `_parcel_geojson` on success and on failure
alike), then stats; the `except` re-raises, so the first failing write aborts
the rest.  Returns the artifacts written and whether the block completed. -/
def saveData (env : OrchEnv) : List Artifact × Bool :=
  match env.saveMeetingsW with
  | .error _ => ([], false)
  | .ok _ =>
    match env.savePetitionsW with
    | .error _ => ([.meetings], false)
    | .ok _ =>
      match env.saveParcelsW with
      | .error _ => ([.meetings, .petitions], false)
      | .ok _ =>
        match env.saveStatsW with
        | .error _ => ([.meetings, .petitions, .parcels], false)
        | .ok _ => ([.meetings, .petitions, .parcels, .stats], true)

/-- `TownhallOrchestrator.run` (main.py lines 52-104): any exception escaping
a step is caught by the outer `except` and turns the run into `False`; an
empty meeting list returns `False` at line 78; a geometry failure is
swallowed; success requires `_save_data` to complete.  The result pairs the
returned boolean with the artifacts written. -/
def run (env : OrchEnv) : Bool × List Artifact :=
  match env.scrapeMeetings with
  | .error _ => (false, [])
  | .ok meetings =>
    if meetings.isEmpty then (false, [])
    else
      match env.processPetitions meetings with
      | .error _ => (false, [])
      | .ok meetings2 =>
        let _geo := match env.fetchGeometry meetings2 with
          | .ok g => g
          | .error _ => FeatureCollection.mk []
        let sd := saveData env
        (sd.2, sd.1)

/-! ### Concrete fixtures used by witnesses and counterexamples -/

/-- A one-pattern list whose semantics matches nothing on empty text. -/
def patterns0 : List (String → List String) :=
  [fun t => if t.length = 0 then [] else ["123-053-10", "12305310"]]

/-- Both backends raise; only pdfplumber is installed. -/
def envAllRaise : PdfEnv :=
  ⟨true, false, fun _ => .error "boom", fun _ => .error "boom",
   fun _ => true, fun _ => 3, fun _ => []⟩

/-- One installed backend that extracts empty text without raising. -/
def envEmptyText : PdfEnv :=
  ⟨true, false, fun _ => .ok ("", 0), fun _ => .error "unused",
   fun _ => true, fun _ => 5, fun _ => []⟩

/-- Both backends installed; the primary yields under 100 characters. -/
def envFallback : PdfEnv :=
  ⟨true, true, fun _ => .ok ("tiny", 1), fun _ => .ok ("recovered text", 2),
   fun _ => true, fun _ => 7, fun _ => []⟩

def meetingStub : Meeting :=
  ⟨"Zoning Committee", "2026-01-20", none, none,
   "https://charlottenc.legistar.com/MeetingDetail.aspx?ID=1", none, []⟩

/-- A successful calendar fetch that yields zero meetings; every later step
would succeed. -/
def envZeroMeetings : OrchEnv :=
  ⟨.ok [], fun ms => .ok ms, fun _ => .ok ⟨[]⟩, .ok (), .ok (), .ok (), .ok ()⟩

/-- A run in which only the parcel-geometry write fails. -/
def envGeoWriteFails : OrchEnv :=
  ⟨.ok [meetingStub], fun ms => .ok ms, fun _ => .ok ⟨[]⟩,
   .ok (), .ok (), .error "disk full", .ok ()⟩

/-- GIS oracle with exactly one known parcel. -/
def lookup0 : String → Option GisFeature := fun pin =>
  if pin = "22310197" then
    some ⟨"polygon-22310197",
      [("PID", some "22310197"), ("NC_PIN", some "4447181490")]⟩
  else none

def petition0 : Petition :=
  { fileNumber := "15-25343", petitionNumber := some "2025-103",
    currentZoning := some "R-3", proposedZoning := some "UR-2",
    pins := some ["22310197", "99999999"] }

def mkDatedMeeting (d : String) : Meeting :=
  ⟨"Zoning Committee", d, none, none,
   "https://charlottenc.legistar.com/MeetingDetail.aspx?ID=2", none, []⟩

def meetings0 : List Meeting :=
  [mkDatedMeeting "2026-01-05", mkDatedMeeting "2026-01-15",
   mkDatedMeeting "2026-01-25"]

/-- A calendar row with exactly five cells and a parseable date but no
meeting-details link column. -/
def row5cells : Row :=
  ⟨[⟨"Zoning Committee", none, none⟩, ⟨"01/20/2026", none, none⟩,
    ⟨"", none, none⟩, ⟨"6:00 PM", none, none⟩, ⟨"Room 267", none, none⟩]⟩

/-- A full calendar row with a details link and an agenda link. -/
def row7cells : Row :=
  ⟨[⟨"Zoning Committee", none, none⟩, ⟨"01/20/2026", none, none⟩,
    ⟨"", none, none⟩, ⟨"6:00 PM", none, some "6:00 PM"⟩,
    ⟨"Room 267", none, none⟩,
    ⟨"Meeting details", some ⟨some "MeetingDetail.aspx?ID=3", "details"⟩, none⟩,
    ⟨"Agenda", some ⟨some "#", "Agenda"⟩, none⟩]⟩

def emptyStorage : StorageState := ⟨none, none, none, none⟩

/-! ## Theorems -/

theorem sortPins_sorted (l : List String) :
    (sortPins l).Sorted (fun a b : String => a ≤ b) :=
  List.sorted_insertionSort _ l

theorem sortPins_perm (l : List String) : (sortPins l).Perm l :=
  List.perm_insertionSort _ l

theorem sortPins_eq_of_perm {l1 l2 : List String} (h : l1.Perm l2) :
    sortPins l1 = sortPins l2 :=
  List.eq_of_perm_of_sorted (((sortPins_perm l1).trans h).trans (sortPins_perm l2).symm)
    (sortPins_sorted l1) (sortPins_sorted l2)

/-- C1: for every input text and list of PIN patterns, the Identifier
Extractor returns a lexicographically sorted, duplicate-free list; its
members are exactly the hyphen-normalized matched groups (for pattern lists
that, like the PIN regexes, match nothing on empty text); normalization
removes hyphens and leaves hyphen-free identifiers unchanged; and the result
is independent of the order of the patterns. -/
theorem extractPinsFromText_correct (patterns : List (String → List String))
    (text : String) :
    (extractPinsFromText patterns text).Sorted (fun a b : String => a ≤ b)
    ∧ (extractPinsFromText patterns text).Nodup
    ∧ ((∀ p ∈ patterns, p "" = []) → ∀ s,
        s ∈ extractPinsFromText patterns text ↔
          ∃ p ∈ patterns, ∃ m ∈ p text, s = normalizePin m)
    ∧ (∀ m : String, (∀ c ∈ m.toList, c ≠ '-') → normalizePin m = m)
    ∧ normalizePin "123-053-10" = "12305310"
    ∧ (∀ patterns2, patterns.Perm patterns2 →
        extractPinsFromText patterns2 text = extractPinsFromText patterns text) := by
  refine ⟨?_, ?_, ?_, ?_, by decide, ?_⟩
  · by_cases ht : text = ""
    · simp [extractPinsFromText, ht]
    · rw [extractPinsFromText, if_neg ht]
      exact sortPins_sorted _
  · by_cases ht : text = ""
    · simp [extractPinsFromText, ht]
    · rw [extractPinsFromText, if_neg ht]
      exact ((sortPins_perm _).nodup_iff).mpr (List.nodup_dedup _)
  · intro hEmpty s
    by_cases ht : text = ""
    · rw [extractPinsFromText, if_pos ht, ht]
      constructor
      · intro h
        exact absurd h (List.not_mem_nil s)
      · rintro ⟨p, hp, m, hm, -⟩
        rw [hEmpty p hp] at hm
        exact absurd hm (List.not_mem_nil m)
    · rw [extractPinsFromText, if_neg ht]
      rw [(sortPins_perm _).mem_iff, List.mem_dedup, List.mem_flatMap]
      constructor
      · rintro ⟨p, hp, hs⟩
        rcases List.mem_map.mp hs with ⟨m, hm, rfl⟩
        exact ⟨p, hp, m, hm, rfl⟩
      · rintro ⟨p, hp, m, hm, rfl⟩
        exact ⟨p, hp, List.mem_map.mpr ⟨m, hm, rfl⟩⟩
  · intro m hm
    unfold normalizePin
    rw [List.filter_eq_self.mpr (fun c hc => by simpa using hm c hc)]
    exact String.asString_toList m
  · intro patterns2 hperm
    by_cases ht : text = ""
    · rw [extractPinsFromText, if_pos ht, extractPinsFromText, if_pos ht]
    · rw [extractPinsFromText, if_neg ht, extractPinsFromText, if_neg ht]
      exact sortPins_eq_of_perm ((hperm.symm.flatMap_right _).dedup)

/-- Witness for C1 at a concrete pattern list and document text. -/
theorem extractPinsFromText_correct_instance :
    (extractPinsFromText patterns0 "TAX PARCEL NO. 123-053-10").Sorted
        (fun a b : String => a ≤ b)
    ∧ (∀ s, s ∈ extractPinsFromText patterns0 "TAX PARCEL NO. 123-053-10" ↔
        ∃ p ∈ patterns0, ∃ m ∈ p "TAX PARCEL NO. 123-053-10", s = normalizePin m) :=
  ⟨(extractPinsFromText_correct patterns0 "TAX PARCEL NO. 123-053-10").1,
   (extractPinsFromText_correct patterns0 "TAX PARCEL NO. 123-053-10").2.2.1
     (fun p hp => by rw [List.mem_singleton.mp hp]; rfl)⟩

theorem flatMap_extract_from_pdf (env : PdfEnv)
    (patterns : List (String → List String)) (docs : List String) :
    docs.flatMap (extract_from_pdf env patterns)
      = (docs.filterMap (fun d => (parsePdf env d).toOption)).flatMap
          (fun r => extractPinsFromText patterns r.text) := by
  induction docs with
  | nil => rfl
  | cons d ds ih =>
    rw [List.flatMap_cons, List.filterMap_cons]
    cases h : parsePdf env d with
    | error e =>
      have hd : extract_from_pdf env patterns d = [] := by
        by_cases hf : env.fileExists d = false
        · simp [extract_from_pdf, hf]
        · simp [extract_from_pdf, hf, h]
      rw [hd]
      simpa [Except.toOption] using ih
    | ok r =>
      have hf : ¬ env.fileExists d = false := by
        intro hc
        rw [parsePdf, if_pos hc] at h
        cases h
      have hd : extract_from_pdf env patterns d = extractPinsFromText patterns r.text := by
        simp [extract_from_pdf, hf, h]
      rw [hd]
      simp [Except.toOption, List.flatMap_cons, ih]

/-- C2: extraction over a batch or a directory of documents is total, a
failing document (missing file or raising parser) contributes zero
identifiers, and the result is the sorted, deduplicated union of the
identifiers of the documents that parse successfully. -/
theorem extraction_partial_failure_containment (env : PdfEnv)
    (patterns : List (String → List String)) (docs : List String) :
    extract_batch env patterns docs
      = sortPins (((docs.filterMap (fun d => (parsePdf env d).toOption)).flatMap
          (fun r => extractPinsFromText patterns r.text)).dedup)
    ∧ extract_from_directory env patterns (some docs) = extract_batch env patterns docs
    ∧ extract_from_directory env patterns none = [] := by
  refine ⟨?_, ?_, rfl⟩
  · rw [extract_batch, flatMap_extract_from_pdf]
  · by_cases hd : docs = []
    · subst hd; rfl
    · rw [extract_from_directory, if_neg hd, extract_batch]

/-- Counterexample to C3 as stated: with one installed backend whose every
invocation raises, `parse_pdf` does not fail with an extraction error — the
backend wrapper swallows the exception and an `ok` result with empty text is
returned. -/
theorem parsePdf_allBackendsRaise_returns_ok :
    envAllRaise.plumberAvail = true ∧ envAllRaise.pypdf2Avail = false
    ∧ envAllRaise.fileExists "doc.pdf" = true
    ∧ envAllRaise.plumber "doc.pdf" = .error "boom"
    ∧ parsePdf envAllRaise "doc.pdf" = .ok ⟨"", 0, 3, []⟩ := by
  refine ⟨rfl, rfl, rfl, rfl, ?_⟩
  rfl

/-- C3 (amended): `parse_pdf` fails with a NotFound error exactly when the
path does not exist, fails with an extraction error exactly when the file
exists but no backend is installed, and never fails because extracted text is
empty: for an existing file whose available backend yields empty text it
returns a result whose text is the empty string.  (A backend that raises is
caught inside its wrapper and contributes empty text instead of an error.) -/
theorem parsePdf_error_conditions (env : PdfEnv) (path : String) :
    ((∃ msg, parsePdf env path = .error (.notFound msg)) ↔
        env.fileExists path = false)
    ∧ ((∃ msg, parsePdf env path = .error (.extractionError msg)) ↔
        (env.fileExists path = true ∧ env.plumberAvail = false
          ∧ env.pypdf2Avail = false))
    ∧ (env.fileExists path = true → env.plumberAvail = true →
        env.pypdf2Avail = false → env.plumber path = .ok ("", 0) →
        parsePdf env path = .ok ⟨"", 0, env.sizeKb path, env.metadata path⟩) := by
  refine ⟨?_, ?_, ?_⟩
  · cases hf : env.fileExists path
    · simp [parsePdf, hf]
    · cases hp : env.plumberAvail
      · cases hq : env.pypdf2Avail
        · simp [parsePdf, hf, hp, hq]
        · simp [parsePdf, hf, hp, hq]
      · simp [parsePdf, hf, hp]
  · cases hf : env.fileExists path
    · simp [parsePdf, hf]
    · cases hp : env.plumberAvail
      · cases hq : env.pypdf2Avail
        · simp [parsePdf, hf, hp, hq]
        · simp [parsePdf, hf, hp, hq]
      · simp [parsePdf, hf, hp]
  · intro hf hp hq hpl
    simp [parsePdf, hf, hp, hq, parseWithPdfplumber, hpl]

/-- Witness for C3 (amended): an existing file, one installed backend that
yields empty text, and an ok result with empty text. -/
theorem parsePdf_error_conditions_instance :
    parsePdf envEmptyText "a.pdf"
      = .ok ⟨"", 0, envEmptyText.sizeKb "a.pdf", envEmptyText.metadata "a.pdf"⟩ :=
  (parsePdf_error_conditions envEmptyText "a.pdf").2.2 rfl rfl rfl rfl

/-- C4: with both backends available `parse_pdf` prefers pdfplumber, and
invokes PyPDF2 exactly when pdfplumber yields fewer than 100 characters, in
which case PyPDF2's text and page count replace the result; with a single
available backend that backend's result is used with no fallback. -/
theorem parsePdf_backend_fallback (env : PdfEnv) (path : String)
    (hex : env.fileExists path = true) :
    (env.plumberAvail = true → env.pypdf2Avail = true →
      (100 ≤ (parseWithPdfplumber env path).1.length →
        parsePdf env path = .ok ⟨(parseWithPdfplumber env path).1,
          (parseWithPdfplumber env path).2, env.sizeKb path, env.metadata path⟩)
      ∧ ((parseWithPdfplumber env path).1.length < 100 →
        parsePdf env path = .ok ⟨(parseWithPypdf2 env path).1,
          (parseWithPypdf2 env path).2, env.sizeKb path, env.metadata path⟩))
    ∧ (env.plumberAvail = true → env.pypdf2Avail = false →
        parsePdf env path = .ok ⟨(parseWithPdfplumber env path).1,
          (parseWithPdfplumber env path).2, env.sizeKb path, env.metadata path⟩)
    ∧ (env.plumberAvail = false → env.pypdf2Avail = true →
        parsePdf env path = .ok ⟨(parseWithPypdf2 env path).1,
          (parseWithPypdf2 env path).2, env.sizeKb path, env.metadata path⟩) := by
  refine ⟨fun hp hq => ⟨?_, ?_⟩, fun hp hq => ?_, fun hp hq => ?_⟩
  · intro hlen
    simp [parsePdf, hex, hp, hq, Nat.not_lt.mpr hlen]
  · intro hlen
    simp [parsePdf, hex, hp, hq, hlen]
  · simp [parsePdf, hex, hp, hq]
  · simp [parsePdf, hex, hp, hq]

/-- Witness for C4: both backends installed, the primary extracting 4
characters, so PyPDF2's text and page count are returned. -/
theorem parsePdf_backend_fallback_instance :
    parsePdf envFallback "b.pdf"
      = .ok ⟨(parseWithPypdf2 envFallback "b.pdf").1,
          (parseWithPypdf2 envFallback "b.pdf").2,
          envFallback.sizeKb "b.pdf", envFallback.metadata "b.pdf"⟩ :=
  ((parsePdf_backend_fallback envFallback "b.pdf" rfl).1 rfl rfl).2 (by decide)

/-- Counterexample to C5 as stated: a run whose calendar fetch succeeds with
zero meetings returns `False` (reported as a failure by main.py), not
success, even though every later step would have succeeded. -/
theorem run_zero_meetings_reports_failure :
    envZeroMeetings.scrapeMeetings = .ok []
    ∧ (saveData envZeroMeetings).2 = true
    ∧ run envZeroMeetings = (false, []) := by
  refine ⟨rfl, rfl, rfl⟩

/-- C5 (amended): a run whose calendar fetch succeeds but yields zero
meetings terminates without raising but reports failure (`run` returns
`False` at the `if not meetings` guard), writing no artifacts. -/
theorem run_zero_meetings_behavior (env : OrchEnv)
    (h : env.scrapeMeetings = .ok []) :
    run env = (false, []) := by
  simp [run, h]

/-- Witness for C5 (amended). -/
theorem run_zero_meetings_behavior_instance :
    run envZeroMeetings = (false, []) :=
  run_zero_meetings_behavior envZeroMeetings rfl

/-- Counterexample to C6 as stated: when the parcel-geometry write fails the
statistics write does not happen (`_save_data` is one re-raising `try`
block), and the run is reported as a failure, not a qualified success. -/
theorem saveData_partial_write_aborts :
    envGeoWriteFails.saveParcelsW = .error "disk full"
    ∧ envGeoWriteFails.saveStatsW = .ok ()
    ∧ saveData envGeoWriteFails = ([.meetings, .petitions], false)
    ∧ run envGeoWriteFails = (false, [.meetings, .petitions]) := by
  refine ⟨rfl, rfl, rfl, rfl⟩

/-- C6 (amended): the four artifacts are written sequentially (meetings,
petitions, parcel geometry, statistics) inside one re-raising block; a
failure writing the geometry artifact leaves the meetings and petitions
writes intact but aborts the statistics write, and the run is reported as a
failure. -/
theorem saveData_failure_propagation (env : OrchEnv) (ms : List Meeting)
    (e : String) (h1 : env.scrapeMeetings = .ok ms) (h2 : ms ≠ [])
    (h3 : env.processPetitions ms = .ok ms)
    (h4 : env.saveMeetingsW = .ok ()) (h5 : env.savePetitionsW = .ok ())
    (h6 : env.saveParcelsW = .error e) :
    saveData env = ([.meetings, .petitions], false)
    ∧ run env = (false, [.meetings, .petitions]) := by
  have hsd : saveData env = ([.meetings, .petitions], false) := by
    simp [saveData, h4, h5, h6]
  refine ⟨hsd, ?_⟩
  have hne : ms.isEmpty = false := by
    cases ms with
    | nil => exact absurd rfl h2
    | cons a l => rfl
  simp [run, h1, h3, hne, hsd]

/-- Witness for C6 (amended). -/
theorem saveData_failure_propagation_instance :
    saveData envGeoWriteFails = ([.meetings, .petitions], false)
    ∧ run envGeoWriteFails = (false, [.meetings, .petitions]) :=
  saveData_failure_propagation envGeoWriteFails [meetingStub] "disk full"
    rfl (by decide) rfl rfl rfl rfl

theorem getProp_append (l1 l2 : List (String × Option String)) (k : String) :
    getProp (l1 ++ l2) k
      = match getProp l1 k with
        | some v => some v
        | none => getProp l2 k := by
  induction l1 with
  | nil => rfl
  | cons kv rest ih =>
    obtain ⟨a, b⟩ := kv
    by_cases hk : k = a <;> simp [getProp, hk, ih]

theorem getProp_map_update (d u : List (String × Option String)) (k : String) :
    getProp (d.map (fun kv =>
        match getProp u kv.1 with
        | some v => (kv.1, v)
        | none => kv)) k
      = match getProp d k with
        | some w => some ((getProp u k).getD w)
        | none => none := by
  induction d with
  | nil => rfl
  | cons kv d2 ih =>
    obtain ⟨a, b⟩ := kv
    by_cases hk : k = a
    · subst hk
      cases hu : getProp u k <;> simp [getProp, hu]
    · cases hu : getProp u a <;> simp [getProp, hk, hu, ih]

theorem getProp_filter_isNone (d u : List (String × Option String)) (k : String) :
    getProp (u.filter (fun kv => (getProp d kv.1).isNone)) k
      = match getProp d k with
        | some _ => none
        | none => getProp u k := by
  induction u with
  | nil => cases hd : getProp d k <;> simp [getProp]
  | cons kv u2 ih =>
    obtain ⟨a, b⟩ := kv
    by_cases hk : k = a
    · subst hk
      cases hd : getProp d k with
      | some w => simp [List.filter_cons, hd, ih]
      | none => simp [List.filter_cons, hd, getProp]
    · cases hp : (getProp d a).isNone <;>
        simp [List.filter_cons, hp, getProp, hk, ih]

/-- `dict.update` lookup semantics: an updated key takes the update's value,
any other key keeps the original dictionary's value. -/
theorem getProp_dictUpdate (d u : List (String × Option String)) (k : String) :
    getProp (dictUpdate d u) k
      = match getProp d k with
        | some w => some ((getProp u k).getD w)
        | none => getProp u k := by
  cases hd : getProp d k <;>
    simp [dictUpdate, getProp_append, getProp_map_update, getProp_filter_isNone, hd]

theorem getProp_dictUpdate_of_some (d u : List (String × Option String))
    (k : String) (v : Option String) (h : getProp u k = some v) :
    getProp (dictUpdate d u) k = some v := by
  rw [getProp_dictUpdate]
  cases hd : getProp d k <;> simp [h]

theorem getProp_dictUpdate_of_none (d u : List (String × Option String))
    (k : String) (h : getProp u k = none) :
    getProp (dictUpdate d u) k = getProp d k := by
  rw [getProp_dictUpdate]
  cases hd : getProp d k <;> simp [h]

theorem pinFold_spec (lookup : String → Option GisFeature) (p : Petition)
    (d t : String) (pins : List String) (acc : FetchResult) :
    pins.foldl (gisPinStep lookup p d t) acc
      = ⟨acc.features ++ pins.filterMap (fun pin => (lookup pin).map (augFeature p d t)),
         acc.attempted + pins.length,
         acc.found + (pins.filterMap (fun pin => (lookup pin).map (augFeature p d t))).length⟩ := by
  induction pins generalizing acc with
  | nil => simp
  | cons pin rest ih =>
    rw [List.foldl_cons, List.filterMap_cons]
    cases h : lookup pin with
    | none =>
      rw [show gisPinStep lookup p d t acc pin
            = ⟨acc.features, acc.attempted + 1, acc.found⟩ by
          simp [gisPinStep, h]]
      rw [ih]
      simp only [h, Option.map_none', FetchResult.mk.injEq, List.length_cons]
      exact ⟨trivial, by omega, trivial⟩
    | some parcel =>
      rw [show gisPinStep lookup p d t acc pin
            = ⟨acc.features ++ [augFeature p d t parcel], acc.attempted + 1,
               acc.found + 1⟩ by
          simp [gisPinStep, h]]
      rw [ih]
      simp only [h, Option.map_some', FetchResult.mk.injEq, List.length_cons]
      refine ⟨by rw [List.append_assoc, List.singleton_append], by omega, by omega⟩

theorem petitionFold_spec (lookup : String → Option GisFeature) (d t : String)
    (ps : List Petition) (acc : FetchResult) :
    ps.foldl (gisPetitionStep lookup d t) acc
      = ⟨acc.features ++ resolvedFeatures lookup d t ps,
         acc.attempted + (ps.map (fun p => (pinsOf p).length)).sum,
         acc.found + (resolvedFeatures lookup d t ps).length⟩ := by
  induction ps generalizing acc with
  | nil => simp [resolvedFeatures]
  | cons p rest ih =>
    rw [List.foldl_cons, gisPetitionStep, pinFold_spec, ih]
    simp only [resolvedFeatures, List.flatMap_cons, List.map_cons, List.sum_cons,
      FetchResult.mk.injEq, List.length_append]
    refine ⟨List.append_assoc _ _ _, by omega, by omega⟩

/-- C7: GIS resolution treats each identifier independently: the feature list
is exactly the per-petition, per-PIN filter-map in which an unmatched (or
failed) lookup contributes nothing while a match contributes exactly one
augmented feature; the attempted counter counts every PIN of every petition
with PINs; the found counter counts exactly the produced features; and the
augmented properties carry the GIS attributes together with the petition's
number, file number, location, status, zonings, petitioner and the meeting's
date and type. -/
theorem fetchParcelsForPetitions_correct (lookup : String → Option GisFeature)
    (petitions : List Petition) (d t : String) :
    (fetchParcelsForPetitions lookup petitions d t).features
        = resolvedFeatures lookup d t (petitions.filter hasPins)
    ∧ (fetchParcelsForPetitions lookup petitions d t).attempted
        = ((petitions.filter hasPins).map (fun p => (pinsOf p).length)).sum
    ∧ (fetchParcelsForPetitions lookup petitions d t).found
        = (fetchParcelsForPetitions lookup petitions d t).features.length
    ∧ (∀ (g : GisFeature) (p : Petition),
        (augFeature p d t g).geometry = g.geometry
        ∧ getProp (augFeature p d t g).properties "petition_number"
            = some (some (displayPetitionNumber p))
        ∧ getProp (augFeature p d t g).properties "file_number"
            = some (some p.fileNumber)
        ∧ getProp (augFeature p d t g).properties "location" = some p.location
        ∧ getProp (augFeature p d t g).properties "status" = some p.status
        ∧ getProp (augFeature p d t g).properties "current_zoning"
            = some p.currentZoning
        ∧ getProp (augFeature p d t g).properties "proposed_zoning"
            = some p.proposedZoning
        ∧ getProp (augFeature p d t g).properties "petitioner" = some p.petitioner
        ∧ getProp (augFeature p d t g).properties "meeting_date" = some (some d)
        ∧ getProp (augFeature p d t g).properties "meeting_type" = some (some t)
        ∧ (∀ k, getProp (petitionAugProps p d t) k = none →
            getProp (augFeature p d t g).properties k = getProp g.properties k)) := by
  have hmain : fetchParcelsForPetitions lookup petitions d t
      = ⟨resolvedFeatures lookup d t (petitions.filter hasPins),
         ((petitions.filter hasPins).map (fun p => (pinsOf p).length)).sum,
         (resolvedFeatures lookup d t (petitions.filter hasPins)).length⟩ := by
    by_cases hw : (petitions.filter hasPins).isEmpty
    · have hnil : petitions.filter hasPins = [] := List.isEmpty_iff.mp hw
      simp [fetchParcelsForPetitions, hw, hnil, resolvedFeatures]
    · simp only [fetchParcelsForPetitions]
      rw [if_neg hw, petitionFold_spec]
      simp
  refine ⟨by rw [hmain], by rw [hmain], by rw [hmain], ?_⟩
  intro g p
  refine ⟨rfl, ?_, ?_, ?_, ?_, ?_, ?_, ?_, ?_, ?_, ?_⟩
  · exact getProp_dictUpdate_of_some _ _ _ _ rfl
  · exact getProp_dictUpdate_of_some _ _ _ _ rfl
  · exact getProp_dictUpdate_of_some _ _ _ _ rfl
  · exact getProp_dictUpdate_of_some _ _ _ _ rfl
  · exact getProp_dictUpdate_of_some _ _ _ _ rfl
  · exact getProp_dictUpdate_of_some _ _ _ _ rfl
  · exact getProp_dictUpdate_of_some _ _ _ _ rfl
  · exact getProp_dictUpdate_of_some _ _ _ _ rfl
  · exact getProp_dictUpdate_of_some _ _ _ _ rfl
  · intro k hk
    exact getProp_dictUpdate_of_none _ _ _ hk

/-- Witness for C7 at a concrete lookup oracle and petition list (one PIN
matched, one unmatched). -/
theorem fetchParcelsForPetitions_correct_instance :
    (fetchParcelsForPetitions lookup0 [petition0] "2026-01-20" "Zoning Committee").attempted
        = (([petition0].filter hasPins).map (fun p => (pinsOf p).length)).sum
    ∧ (fetchParcelsForPetitions lookup0 [petition0] "2026-01-20" "Zoning Committee").found
        = (fetchParcelsForPetitions lookup0 [petition0] "2026-01-20" "Zoning Committee").features.length :=
  ⟨(fetchParcelsForPetitions_correct lookup0 [petition0] "2026-01-20" "Zoning Committee").2.1,
   (fetchParcelsForPetitions_correct lookup0 [petition0] "2026-01-20" "Zoning Committee").2.2.1⟩

theorem isIsoDateString_ne_empty {s : String} (h : isIsoDateString s = true) :
    ¬ s = "" := by
  intro he
  subst he
  exact absurd h (by decide)

/-- C8: date-range filtering is a pure post-filter: with each bound
independently optional (and in ISO `YYYY-MM-DD` form when present), the
result is exactly the order-preserving sublist of meetings whose date lies
inclusively within the bounds, and with no bound given the list is returned
unchanged. -/
theorem filterByDate_correct (meetings : List Meeting)
    (startDate endDate : Option String)
    (hs : optIso startDate = true) (he : optIso endDate = true) :
    filterByDate meetings startDate endDate
      = meetings.filter (inRange startDate endDate)
    ∧ filterByDate meetings none none = meetings := by
  refine ⟨?_, rfl⟩
  cases startDate with
  | none =>
    cases endDate with
    | none => exact (List.filter_eq_self.mpr (fun m _ => rfl)).symm
    | some e =>
      have hne : ¬ e = "" := isIsoDateString_ne_empty (by simpa [optIso] using he)
      simp only [filterByDate, if_neg hne]
      exact List.filter_congr (fun m _ => (Bool.true_and _).symm)
  | some s =>
    have hnes : ¬ s = "" := isIsoDateString_ne_empty (by simpa [optIso] using hs)
    cases endDate with
    | none =>
      simp only [filterByDate, if_neg hnes]
      exact List.filter_congr (fun m _ => (Bool.and_true _).symm)
    | some e =>
      have hnee : ¬ e = "" := isIsoDateString_ne_empty (by simpa [optIso] using he)
      simp only [filterByDate, if_neg hnes, if_neg hnee]
      rw [List.filter_filter]
      exact List.filter_congr (fun m _ => Bool.and_comm _ _)

/-- Witness for C8 at three concrete meetings and the bounds
`2026-01-10 .. 2026-01-20`. -/
theorem filterByDate_correct_instance :
    filterByDate meetings0 (some "2026-01-10") (some "2026-01-20")
      = meetings0.filter (inRange (some "2026-01-10") (some "2026-01-20")) :=
  (filterByDate_correct meetings0 (some "2026-01-10") (some "2026-01-20")
    (by decide) (by decide)).1

theorem extractMeetings_eq_filterMap (base : String) (rows : List Row) :
    extractMeetings base rows = rows.filterMap (parseCalendarRow base) := by
  have h : ∀ (rs : List Row) (acc : List Meeting),
      rs.foldl (fun acc row =>
        match parseCalendarRow base row with
        | some m => acc ++ [m]
        | none => acc) acc = acc ++ rs.filterMap (parseCalendarRow base) := by
    intro rs
    induction rs with
    | nil => intro acc; simp
    | cons r rs2 ih =>
      intro acc
      rw [List.foldl_cons, List.filterMap_cons]
      cases hr : parseCalendarRow base r with
      | none => simp only [hr]; rw [ih]
      | some m => simp only [hr]; rw [ih, List.append_assoc, List.singleton_append]
  simpa [extractMeetings] using h rows []

/-- Counterexample to C9 as stated: a row with exactly five columns and a
parseable date yields no Meeting, because the code additionally requires a
meeting-details link in the sixth column. -/
theorem parseCalendarRow_five_cells_no_meeting :
    5 ≤ row5cells.cells.length
    ∧ parseDate (cellAt row5cells 1).text = some "2026-01-20"
    ∧ parseCalendarRow "https://charlottenc.legistar.com" row5cells = none := by
  exact ⟨by decide, by decide, by decide⟩

/-- C9 (amended): a calendar row produces one Meeting exactly when it has at
least five columns, a date parseable by one of the known formats, and a
sixth-column link whose href resolves to an absolute URL; rows failing any
condition are skipped, so the page parse is the filter-map of the row parser
over all rows and a malformed row never aborts the remaining rows. -/
theorem parseCalendarRow_characterization (base : String) (rows : List Row)
    (row : Row) :
    ((parseCalendarRow base row).isSome = true ↔
      (5 ≤ row.cells.length
        ∧ (parseDate (cellAt row 1).text).isSome = true
        ∧ ∃ a, (cellAt row 5).anchor = some a
            ∧ (makeAbsoluteUrl base a.href).isSome = true))
    ∧ extractMeetings base rows = rows.filterMap (parseCalendarRow base) := by
  refine ⟨?_, extractMeetings_eq_filterMap base rows⟩
  by_cases h5 : row.cells.length < 5
  · have h5n : ¬ 5 ≤ row.cells.length := by omega
    simp only [parseCalendarRow]
    rw [if_pos h5]
    simp [h5n]
  · simp only [parseCalendarRow]
    rw [if_neg h5]
    cases hd : parseDate (cellAt row 1).text with
    | none => simp [hd]
    | some date =>
      cases ha : (cellAt row 5).anchor with
      | none => simp [hd, ha]
      | some link =>
        cases hu : makeAbsoluteUrl base link.href with
        | none => simp [hd, ha, hu]
        | some url =>
          simp [hd, ha, hu]
          omega

/-- Witness for C9 (amended) at a full concrete row (the iff's right side is
discharged concretely) and a two-row page containing one malformed row. -/
theorem parseCalendarRow_characterization_instance :
    (parseCalendarRow "https://charlottenc.legistar.com" row7cells).isSome = true
    ∧ extractMeetings "https://charlottenc.legistar.com" [row5cells, row7cells]
        = [row5cells, row7cells].filterMap
            (parseCalendarRow "https://charlottenc.legistar.com") :=
  ⟨((parseCalendarRow_characterization "https://charlottenc.legistar.com"
        [row5cells, row7cells] row7cells).1).mpr
      ⟨by decide, by decide,
       ⟨⟨some "MeetingDetail.aspx?ID=3", "details"⟩, by decide, by decide⟩⟩,
   (parseCalendarRow_characterization "https://charlottenc.legistar.com"
      [row5cells, row7cells] row7cells).2⟩

/-- C10: every storage load is total on a missing artifact file:
`load_meetings` returns the empty list, `load_petitions` the empty list,
`get_stats` the all-zero default statistics record, and
`load_parcels_geojson` an empty FeatureCollection. -/
theorem storage_loads_total_on_missing (st : StorageState) :
    (st.meetingsFile = none → load_meetings st = [])
    ∧ (st.petitionsFile = none → load_petitions st = [])
    ∧ (st.statsFile = none → get_stats st = ⟨0, 0, 0, 0, 0, none⟩)
    ∧ (st.parcelsFile = none → load_parcels_geojson st = ⟨[]⟩) := by
  refine ⟨fun h => ?_, fun h => ?_, fun h => ?_, fun h => ?_⟩ <;>
    simp [load_meetings, load_petitions, get_stats, load_parcels_geojson, h]

/-- Witness for C10 at a storage state with all four files missing. -/
theorem storage_loads_total_on_missing_instance :
    load_meetings emptyStorage = []
    ∧ load_petitions emptyStorage = []
    ∧ get_stats emptyStorage = ⟨0, 0, 0, 0, 0, none⟩
    ∧ load_parcels_geojson emptyStorage = ⟨[]⟩ :=
  ⟨(storage_loads_total_on_missing emptyStorage).1 rfl,
   (storage_loads_total_on_missing emptyStorage).2.1 rfl,
   (storage_loads_total_on_missing emptyStorage).2.2.1 rfl,
   (storage_loads_total_on_missing emptyStorage).2.2.2 rfl⟩

end Townhall
